import Mathlib

/-!
Verification development for the RidgeRadar market-scoring and shadow-trading
pipeline.  Python floats and Decimals are modelled as exact rationals; the one
transcendental operation (math.log in the update-rate normalisation) is
modelled with the real logarithm, so the affected quantities live in ℝ.
Database rows are modelled as records, nullable columns as Option, and the
queries feeding each function are abstracted to the row values they return.
Python truthiness of numeric/nullable values (None and 0 both falsy) is
modelled explicitly where the source relies on it.
-/

/-- Clamp value between min and max (ScoringEngine.clamp). -/
def clamp {α : Type} [LinearOrder α] (value min_val max_val : α) : α :=
  max min_val (min value max_val)

/-- Round half to even at integer precision, the rounding used by Python's
built-in round.  Mathlib's round is round-half-up, so ties (fractional part
exactly 1/2) are redirected to the even neighbour. -/
def rhe {α : Type} [LinearOrderedField α] [FloorRing α] [DecidableEq α] (y : α) : ℤ :=
  if Int.fract y = 1 / 2 then 2 * round (y / 2) else round y

/-- Python round(x, 2): round half to even at two decimal places. -/
def round2 {α : Type} [LinearOrderedField α] [FloorRing α] [DecidableEq α] (x : α) : α :=
  (rhe (x * 100) : α) / 100

/-! ## Scoring engine (app/services/scoring/engine.py)

defaults.yaml is absent from the repository's config directory, so
ScoringEngine falls back to _get_fallback_config; the normalisation
parameters, weights and guard thresholds below are those fallback values,
which are the defaults every claim refers to. -/

/-- Input metrics for scoring calculation (MarketMetrics dataclass; the spec
calls this record ProfileMetrics). -/
structure MarketMetrics where
  spread_ticks : ℚ
  volatility : ℚ
  update_rate : ℚ
  depth : ℚ
  volume : ℚ
  mean_price : Option ℚ
  snapshot_count : ℤ

/-- Result of exploitability calculation (ExploitabilityResult dataclass).
The update component and the total involve the real logarithm and so live in
ℝ; the other components are rational. -/
structure ExploitabilityResult where
  total_score : ℝ
  spread_score : ℚ
  volatility_score : ℚ
  update_score : ℝ
  depth_score : ℚ
  volume_penalty : ℚ
  metrics : Option MarketMetrics
  guards_failed : Option (List String)

/-- ScoringEngine.f_spread with the fallback normalisation parameters. -/
def f_spread (spread_ticks : ℚ) : ℚ :=
  let min_ticks : ℚ := 2
  let sweet_spot_max : ℚ := 8
  let max_ticks : ℚ := 12
  if spread_ticks < min_ticks then
    spread_ticks / min_ticks * 0.3
  else if spread_ticks ≤ sweet_spot_max then
    let range_size := sweet_spot_max - min_ticks
    let position := spread_ticks - min_ticks
    0.3 + position / range_size * 0.7
  else
    let excess := spread_ticks - sweet_spot_max
    let max_excess := max_ticks - sweet_spot_max
    max 0 (1 - excess / max_excess)

/-- ScoringEngine.f_volatility with the fallback normalisation parameters. -/
def f_volatility (volatility : ℚ) : ℚ :=
  let target : ℚ := 0.04
  let max_vol : ℚ := 0.12
  if volatility ≤ 0 then 0
  else if volatility < target then volatility / target
  else
    let excess := volatility - target
    let max_excess := max_vol - target
    if max_excess ≤ 0 then 0 else max 0 (1 - excess / max_excess)

/-- ScoringEngine.f_update with the fallback normalisation parameters
(math.log modelled by Real.log). -/
noncomputable def f_update (update_rate : ℚ) : ℝ :=
  let min_rate : ℚ := 0.2
  let max_rate : ℚ := 3.0
  if update_rate ≤ 0 then 0
  else if update_rate < min_rate then (update_rate : ℝ) / (min_rate : ℝ) * 0.3
  else clamp (Real.log (1 + (update_rate : ℝ)) / Real.log (1 + (max_rate : ℝ))) 0 1

/-- ScoringEngine.f_depth with the fallback normalisation parameters. -/
def f_depth (depth : ℚ) : ℚ :=
  let min_depth : ℚ := 150
  let optimal : ℚ := 1500
  let max_depth : ℚ := 8000
  if depth < min_depth then 0
  else if depth ≤ optimal then (depth - min_depth) / (optimal - min_depth)
  else
    let excess := depth - optimal
    let max_excess := max_depth - optimal
    if max_excess ≤ 0 then 1 else max 0.7 (1 - excess / max_excess * 0.3)

/-- ScoringEngine.f_volume with the fallback normalisation parameters. -/
def f_volume (volume : ℚ) : ℚ :=
  let threshold : ℚ := 30000
  let max_vol : ℚ := 200000
  let hard_cap : ℚ := 500000
  if volume ≤ threshold then 0
  else if volume ≥ hard_cap then 1
  else
    let excess := volume - threshold
    let max_excess := max_vol - threshold
    if max_excess ≤ 0 then 1 else clamp (excess / max_excess) 0 1

/-- ScoringEngine.check_guards with the fallback guard thresholds
(absolute_min_depth 100, absolute_max_spread_ticks 20,
min_snapshots_required 5, volume hard_cap 500000). -/
def check_guards (metrics : MarketMetrics) : List String :=
  (if metrics.depth < 100 then ["depth_below_100"] else []) ++
  (if metrics.spread_ticks > 20 then ["spread_above_20"] else []) ++
  (if metrics.snapshot_count < 5 then ["snapshots_below_5"] else []) ++
  (if metrics.volume > 500000 then ["volume_above_500000"] else [])

/-- The guard condition of check_guards as a proposition. -/
def guard_fails (m : MarketMetrics) : Prop :=
  m.depth < 100 ∨ m.spread_ticks > 20 ∨ m.snapshot_count < 5 ∨ m.volume > 500000

instance (m : MarketMetrics) : Decidable (guard_fails m) :=
  inferInstanceAs (Decidable (_ ∨ _ ∨ _ ∨ _))

/-- Fallback weights (weights dict of _get_fallback_config). -/
def w_spread : ℚ := 0.25

/-- Fallback weight for the volatility component. -/
def w_volatility : ℚ := 0.25

/-- Fallback weight for the update-rate component. -/
def w_update : ℚ := 0.15

/-- Fallback weight for the depth component. -/
def w_depth : ℚ := 0.20

/-- Fallback weight for the volume penalty. -/
def w_volume_penalty : ℚ := 0.15

/-- ScoringEngine.calculate_score: guards first (all-zero result with the
failed guard names); otherwise the weighted combination of the normalised
components, scaled to 0-100, total clamped, everything rounded to 2 dp. -/
noncomputable def calculate_score (metrics : MarketMetrics) : ExploitabilityResult :=
  let guards_failed := check_guards metrics
  if guards_failed ≠ [] then
    { total_score := 0
      spread_score := 0
      volatility_score := 0
      update_score := 0
      depth_score := 0
      volume_penalty := 0
      metrics := some metrics
      guards_failed := some guards_failed }
  else
    let spread_norm := f_spread metrics.spread_ticks
    let volatility_norm := f_volatility metrics.volatility
    let update_norm := f_update metrics.update_rate
    let depth_norm := f_depth metrics.depth
    let volume_penalty_norm := f_volume metrics.volume
    let raw_score : ℝ :=
      ((w_spread * spread_norm : ℚ) : ℝ)
        + ((w_volatility * volatility_norm : ℚ) : ℝ)
        + ((w_update : ℚ) : ℝ) * update_norm
        + ((w_depth * depth_norm : ℚ) : ℝ)
        - ((w_volume_penalty * volume_penalty_norm : ℚ) : ℝ)
    let total_score : ℝ := clamp (raw_score * 100) 0 100
    { total_score := round2 total_score
      spread_score := round2 (spread_norm * 100)
      volatility_score := round2 (volatility_norm * 100)
      update_score := round2 (update_norm * 100)
      depth_score := round2 (depth_norm * 100)
      volume_penalty := round2 (volume_penalty_norm * 100)
      metrics := some metrics
      guards_failed := none }

/-! ## Shadow-trading P&L (calculate_pnl in app/tasks/shadow_trading.py) -/

/-- The dict returned by calculate_pnl. -/
structure PnlResult where
  gross_pnl : ℚ
  commission : ℚ
  spread_cost : ℚ
  net_pnl : ℚ
  max_loss : ℚ
  return_on_risk : ℚ
deriving DecidableEq

/-- calculate_pnl: theoretical P&L of a shadow decision.  Decimal arithmetic
is modelled exactly in ℚ; the commission rate is the explicitly passed one
(the None default merely reads the configured rate). -/
def calculate_pnl (stake entry_price : ℚ) (outcome decision_type : String)
    (commission_rate : ℚ) : PnlResult :=
  if outcome = "VOID" then
    { gross_pnl := 0, commission := 0, spread_cost := 0
      net_pnl := 0, max_loss := 0, return_on_risk := 0 }
  else
    let (gross_pnl, commission, net_pnl, max_loss) :=
      if decision_type = "BACK" then
        let max_loss := stake
        if outcome = "WIN" then
          let gross_pnl := stake * (entry_price - 1)
          let commission := gross_pnl * commission_rate
          (gross_pnl, commission, gross_pnl - commission, max_loss)
        else
          (-stake, 0, -stake, max_loss)
      else
        let max_loss := stake * (entry_price - 1)
        if outcome = "WIN" then
          let gross_pnl := stake
          let commission := gross_pnl * commission_rate
          (gross_pnl, commission, gross_pnl - commission, max_loss)
        else
          (-(stake * (entry_price - 1)), 0, -(stake * (entry_price - 1)), max_loss)
    let return_on_risk := if max_loss ≠ 0 then net_pnl / max_loss else 0
    { gross_pnl := gross_pnl, commission := commission, spread_cost := 0
      net_pnl := net_pnl, max_loss := max_loss, return_on_risk := return_on_risk }

/-! ## Phase gate (get_current_phase in app/tasks/shadow_trading.py and
ActivationThresholds.check_ready in app/config/shadow_trading.py) -/

/-- TradingPhase enum. -/
inductive TradingPhase where
  | PHASE1_COLLECTING
  | PHASE2_SHADOW
  | PHASE3_LIVE
deriving DecidableEq

/-- ActivationThresholds dataclass. -/
structure ActivationThresholds where
  min_closing_data : ℤ
  min_results : ℤ
  min_high_score_markets : ℤ
  min_days_collecting : ℤ

/-- The dataclass defaults 500 / 200 / 50 / 2. -/
def defaultActivationThresholds : ActivationThresholds :=
  { min_closing_data := 500, min_results := 200
    min_high_score_markets := 50, min_days_collecting := 2 }

/-- ActivationThresholds.check_ready: the ready flag (the all of the per-
threshold met flags; the details dict carries no further information). -/
def check_ready (t : ActivationThresholds)
    (closing_data results high_score days : ℤ) : Bool :=
  decide (closing_data ≥ t.min_closing_data) &&
  decide (results ≥ t.min_results) &&
  decide (high_score ≥ t.min_high_score_markets) &&
  decide (days ≥ t.min_days_collecting)

/-- The flags and thresholds of ShadowTradingConfig that get_current_phase
reads. -/
structure ShadowConfigFlags where
  enabled : Bool
  auto_activate_phase2 : Bool
  activation : ActivationThresholds

/-- get_current_phase, with the counting SQL query abstracted to the four
counts it returns (each already null-coalesced to 0 by the source). -/
def get_current_phase (config : ShadowConfigFlags)
    (closing_data results high_score days : ℤ) : TradingPhase :=
  if config.enabled = false then TradingPhase.PHASE1_COLLECTING
  else
    let ready := check_ready config.activation closing_data results high_score days
    if ready && config.auto_activate_phase2 then TradingPhase.PHASE2_SHADOW
    else TradingPhase.PHASE1_COLLECTING

/-! ## Closing-mid capture and CLV (capture_closing_prices in
app/tasks/shadow_trading.py) -/

/-- The per-decision update of capture_closing_prices once best back and best
lay prices were found for the decision's runner: returns
(closing_mid, clv_percent). -/
def capture_closing_update (decision_type : String)
    (entry_back_price entry_lay_price closing_back closing_lay : ℚ) : ℚ × ℚ :=
  let closing_mid := (closing_back + closing_lay) / 2
  let clv :=
    if decision_type = "BACK" ∧ closing_mid > 0 then
      (entry_back_price - closing_mid) / closing_mid * 100
    else if decision_type = "LAY" ∧ closing_mid > 0 then
      (closing_mid - entry_lay_price) / entry_lay_price * 100
    else 0
  (closing_mid, clv)

/-! ## Odds band and the scoring task's score rows
(get_odds_band in app/services/profiling/metrics.py,
_score_markets_async in app/tasks/scoring.py) -/

/-- get_odds_band. -/
def get_odds_band (price : ℚ) : String :=
  if price < 1.01 then "Unknown"
  else if price ≤ 1.50 then "Heavy Fav"
  else if price ≤ 2.00 then "Favourite"
  else if price ≤ 3.00 then "Even"
  else if price ≤ 5.00 then "Underdog"
  else "Longshot"

/-- The MarketProfileDaily columns read by the scoring task (nullable
numerics as Option). -/
structure MarketProfileRow where
  avg_spread_ticks : Option ℚ
  price_volatility : Option ℚ
  update_rate_per_min : Option ℚ
  avg_depth_best : Option ℚ
  total_matched_volume : Option ℚ
  mean_price : Option ℚ
  snapshot_count : Option ℤ
  time_bucket : String

/-- The MarketMetrics built by _score_markets_async: float(x or 0) on each
nullable column. -/
def build_metrics (profile : MarketProfileRow) : MarketMetrics :=
  { spread_ticks := profile.avg_spread_ticks.getD 0
    volatility := profile.price_volatility.getD 0
    update_rate := profile.update_rate_per_min.getD 0
    depth := profile.avg_depth_best.getD 0
    volume := profile.total_matched_volume.getD 0
    mean_price := some (profile.mean_price.getD 0)
    snapshot_count := profile.snapshot_count.getD 0 }

/-- get_odds_band(metrics.mean_price or 2.0): Python treats both None and 0.0
as falsy, substituting the price 2.0. -/
def scored_odds_band (metrics : MarketMetrics) : String :=
  let mp := metrics.mean_price.getD 0
  get_odds_band (if mp = 0 then 2 else mp)

/-- The ExploitabilityScore columns the scoring task's constructor call can
touch (nullable config_version_id included). -/
structure ExploitabilityScoreRow where
  market_id : ℤ
  scored_at : ℤ
  time_bucket : String
  odds_band : String
  spread_score : ℚ
  volatility_score : ℚ
  update_score : ℝ
  depth_score : ℚ
  volume_penalty : ℚ
  total_score : ℝ
  config_version_id : Option ℤ

/-- The ExploitabilityScore(...) construction in _score_markets_async.  The
constructor call passes market_id, scored_at, time_bucket, odds_band and the
six score components and nothing else, so the nullable config_version_id
column keeps its null default. -/
noncomputable def build_score_row (market_id scored_at : ℤ)
    (profile : MarketProfileRow) : ExploitabilityScoreRow :=
  let metrics := build_metrics profile
  let result := calculate_score metrics
  { market_id := market_id
    scored_at := scored_at
    time_bucket := profile.time_bucket
    odds_band := scored_odds_band metrics
    spread_score := result.spread_score
    volatility_score := result.volatility_score
    update_score := result.update_score
    depth_score := result.depth_score
    volume_penalty := result.volume_penalty
    total_score := result.total_score
    config_version_id := none }

/-! ## Hypothesis matching (HypothesisEngine.matches_hypothesis in
app/services/hypothesis_engine.py) -/

/-- Python's x or y on nullable Decimals: x if truthy (non-None and nonzero),
else y. -/
def py_or_q (a b : Option ℚ) : Option ℚ :=
  match a with
  | some v => if v ≠ 0 then some v else b
  | none => b

/-- The entry_criteria dict of a TradingHypothesis; absent keys are None and
are defaulted by .get at the use sites. -/
structure HypothesisEntryCriteria where
  min_score : Option ℚ
  min_minutes_to_start : Option ℤ
  max_minutes_to_start : Option ℤ
  max_spread_pct : Option ℚ
  min_total_matched : Option ℚ
  market_type_filter : Option (List String)
  competition_filter : Option (List ℤ)
  price_change_direction : Option String
  min_price_change_pct : Option ℚ
  price_change_window_minutes : Option ℤ

/-- The TradingHypothesis columns matches_hypothesis reads. -/
structure TradingHypothesisRow where
  decision_type : String
  selection_logic : String
  entry_criteria : HypothesisEntryCriteria

/-- The MomentumSignal fields matches_hypothesis reads. -/
structure SignalFields where
  exploitability_score : Option ℚ
  minutes_to_start : ℤ
  spread_pct : ℚ
  total_matched : ℚ
  market_type : String
  competition_id : ℤ
  change_30m : Option ℚ
  change_1h : Option ℚ
  change_2h : Option ℚ

/-- The decision-type selection at the end of matches_hypothesis: the
hypothesis's own decision type, overridden to BACK whenever the criteria
direction is steaming, and to LAY when it is drifting and the selection logic
is contrarian. -/
def decide_decision_type (price_change_direction : Option String)
    (selection_logic decision_type : String) : String :=
  if price_change_direction = some "steaming" then "BACK"
  else if price_change_direction = some "drifting" ∧ selection_logic = "contrarian" then "LAY"
  else decision_type

/-- matches_hypothesis, projected to the decision type of the returned
HypothesisMatch (none models the None early returns; the match_reason string
is elided). -/
def matches_hypothesis (hypothesis : TradingHypothesisRow)
    (signal : SignalFields) : Option String :=
  let criteria := hypothesis.entry_criteria
  let min_score := criteria.min_score.getD 0
  let score_rejects : Bool :=
    match signal.exploitability_score with
    | some sc => decide (sc < min_score)
    | none => decide (min_score > 0)
  if score_rejects then none
  else
  let min_minutes := criteria.min_minutes_to_start.getD 0
  let max_minutes := criteria.max_minutes_to_start.getD 1440
  if signal.minutes_to_start < min_minutes ∨ signal.minutes_to_start > max_minutes then none
  else if signal.spread_pct > criteria.max_spread_pct.getD 10 then none
  else if signal.total_matched < criteria.min_total_matched.getD 0 then none
  else if criteria.market_type_filter.getD [] ≠ [] ∧
      signal.market_type ∉ criteria.market_type_filter.getD [] then none
  else if criteria.competition_filter.getD [] ≠ [] ∧
      signal.competition_id ∉ criteria.competition_filter.getD [] then none
  else
    let min_change := criteria.min_price_change_pct.getD 0
    let change_window := criteria.price_change_window_minutes.getD 60
    let change :=
      if change_window ≤ 30 then signal.change_30m
      else if change_window ≤ 60 then py_or_q signal.change_1h signal.change_30m
      else py_or_q signal.change_2h (py_or_q signal.change_1h signal.change_30m)
    if change = none ∧ min_change > 0 then none
    else
      match change with
      | none =>
          some (decide_decision_type criteria.price_change_direction
            hypothesis.selection_logic hypothesis.decision_type)
      | some c =>
          if criteria.price_change_direction = some "steaming" then
            if c ≥ 0 ∨ |c| < min_change then none
            else some (decide_decision_type criteria.price_change_direction
              hypothesis.selection_logic hypothesis.decision_type)
          else if criteria.price_change_direction = some "drifting" then
            if c ≤ 0 ∨ c < min_change then none
            else some (decide_decision_type criteria.price_change_direction
              hypothesis.selection_logic hypothesis.decision_type)
          else if min_change > 0 ∧ |c| < min_change then none
          else some (decide_decision_type criteria.price_change_direction
            hypothesis.selection_logic hypothesis.decision_type)

/-! ## Momentum signal extraction (HypothesisEngine.find_momentum_signals /
_extract_momentum_signals / _calc_price_change in
app/services/hypothesis_engine.py) -/

/-- HypothesisEngine._calc_price_change, with the historical ladder
abstracted to the runner's best back price in it (none when the ladder, the
runner or its back prices are missing).  Note the result is a percentage. -/
def calc_price_change (current_price : ℚ) (old_price : Option ℚ) : Option ℚ :=
  match old_price with
  | none => none
  | some op => if op ≤ 0 then none else some ((current_price - op) / op * 100)

/-- The per-runner emission decision of _extract_momentum_signals, given the
runner's current best back price and its best back price in the three
historical ladders; min_change is the already-divided threshold the function
receives. -/
def momentum_signal_emitted (back_price : ℚ) (old_30m old_1h old_2h : Option ℚ)
    (min_change : ℚ) : Bool :=
  if back_price ≤ 0 then false
  else if back_price < 1.10 ∨ back_price > 50 then false
  else
    let change_30m := calc_price_change back_price old_30m
    let change_1h := calc_price_change back_price old_1h
    let change_2h := calc_price_change back_price old_2h
    let primary_change := py_or_q change_2h (py_or_q change_1h change_30m)
    match primary_change with
    | none => false
    | some c => if |c| < min_change then false else if |c| > 100 then false else true

/-- find_momentum_signals passes min_change = min_change_pct / 100.0 down to
_extract_momentum_signals. -/
def find_momentum_signal_emitted (back_price : ℚ) (old_30m old_1h old_2h : Option ℚ)
    (min_change_pct : ℚ) : Bool :=
  momentum_signal_emitted back_price old_30m old_1h old_2h (min_change_pct / 100)

/-! ## Pre-start closing capture (_capture_market_closing in
app/tasks/market_closure.py) -/

/-- The MarketClosingData columns _capture_market_closing reads and writes.
closing_odds_present models the truthiness of the closing_odds JSON column. -/
structure MarketClosingDataRow where
  closing_odds_present : Bool
  closing_snapshot_id : Option ℤ
  minutes_to_start : Option ℤ
  final_score : Option ℚ
  final_score_id : Option ℤ
deriving DecidableEq

/-- The latest-snapshot row used by _capture_market_closing. -/
structure SnapshotRow where
  id : ℤ
  has_ladder_data : Bool
  captured_at : ℤ
deriving DecidableEq

/-- The latest-score row used by _capture_market_closing. -/
structure ScoreRowBrief where
  id : ℤ
  total_score : ℚ
  scored_at : ℤ
deriving DecidableEq

/-- A MarketClosingData row with nothing captured yet. -/
def emptyClosingRow : MarketClosingDataRow :=
  { closing_odds_present := false, closing_snapshot_id := none
    minutes_to_start := none, final_score := none, final_score_id := none }

/-- The writes _capture_market_closing performs once it decided not to skip:
closing odds (and the recomputed minutes_to_start) from the latest snapshot
when it has ladder data, then the final score from the latest score row. -/
def apply_capture (row : MarketClosingDataRow) (minutes_to_start : ℤ)
    (latest_snapshot : Option SnapshotRow) (latest_score : Option ScoreRowBrief) :
    MarketClosingDataRow :=
  let row1 :=
    match latest_snapshot with
    | some snap =>
        if snap.has_ladder_data then
          { row with closing_odds_present := true
                     closing_snapshot_id := some snap.id
                     minutes_to_start := some minutes_to_start }
        else row
    | none => row
  match latest_score with
  | some sc => { row1 with final_score_id := some sc.id, final_score := some sc.total_score }
  | none => row1

/-- _capture_market_closing for one market: none models the early returns
(capture skipped), some the updated or freshly created MarketClosingData.
Python truthiness makes a null or zero final_score, and a null or zero
minutes_to_start, falsy in the skip tests. -/
def capture_market_closing (existing : Option MarketClosingDataRow)
    (minutes_to_start : ℤ) (latest_snapshot : Option SnapshotRow)
    (latest_score : Option ScoreRowBrief) : Option MarketClosingDataRow :=
  match existing with
  | some ex =>
      if ex.closing_odds_present = true ∧ ex.final_score.getD 0 ≠ 0 then none
      else if ex.minutes_to_start.getD 0 ≠ 0 ∧ minutes_to_start ≥ ex.minutes_to_start.getD 0 then
        none
      else some (apply_capture ex minutes_to_start latest_snapshot latest_score)
  | none => some (apply_capture emptyClosingRow minutes_to_start latest_snapshot latest_score)

/-! ## Helper lemmas -/

theorem clamp_mem {α : Type} [LinearOrder α] (v lo hi : α) (h : lo ≤ hi) :
    lo ≤ clamp v lo hi ∧ clamp v lo hi ≤ hi :=
  ⟨le_max_left _ _, max_le h (min_le_right _ _)⟩

theorem floor_le_rhe {α : Type} [LinearOrderedField α] [FloorRing α] [DecidableEq α]
    (y : α) : ⌊y⌋ ≤ rhe y := by
  unfold rhe
  split_ifs with h
  · have h1 : (y / 2 : α) - 1 / 2 < (round (y / 2) : α) := by
      exact_mod_cast sub_half_lt_round (y / 2)
    have hy : ((⌊y⌋ : ℤ) : α) = y - 1 / 2 := by
      have hf := Int.floor_add_fract y
      rw [h] at hf
      linarith
    by_contra hc
    push_neg at hc
    have h2 : (2 * round (y / 2) : ℤ) ≤ ⌊y⌋ - 1 := by omega
    have h3 : ((2 * round (y / 2) : ℤ) : α) ≤ ((⌊y⌋ - 1 : ℤ) : α) := by exact_mod_cast h2
    push_cast at h3
    linarith
  · rw [round_eq]
    exact Int.floor_mono (by linarith)

theorem rhe_le_ceil {α : Type} [LinearOrderedField α] [FloorRing α] [DecidableEq α]
    (y : α) : rhe y ≤ ⌈y⌉ := by
  unfold rhe
  split_ifs with h
  · have h1 : (round (y / 2) : α) ≤ y / 2 + 1 / 2 := by
      exact_mod_cast round_le_add_half (y / 2)
    have hle : y ≤ (⌈y⌉ : α) := Int.le_ceil y
    have hy : ((⌊y⌋ : ℤ) : α) = y - 1 / 2 := by
      have hf := Int.floor_add_fract y
      rw [h] at hf
      linarith
    have hlt : ⌊y⌋ < ⌈y⌉ := by
      have hcast : ((⌊y⌋ : ℤ) : α) < ((⌈y⌉ : ℤ) : α) := by rw [hy]; linarith
      exact_mod_cast hcast
    have hgap : ⌊y⌋ + 1 ≤ ⌈y⌉ := by omega
    have hgap2 : ((⌊y⌋ + 1 : ℤ) : α) ≤ ((⌈y⌉ : ℤ) : α) := by exact_mod_cast hgap
    push_cast at hgap2
    by_contra hc
    push_neg at hc
    have h2 : (⌈y⌉ : ℤ) + 1 ≤ 2 * round (y / 2) := by omega
    have h3 : ((⌈y⌉ + 1 : ℤ) : α) ≤ ((2 * round (y / 2) : ℤ) : α) := by exact_mod_cast h2
    push_cast at h3
    linarith
  · rw [round_eq]
    have h1 : (⌊y + 1 / 2⌋ : α) ≤ y + 1 / 2 := Int.floor_le _
    have h2 : y ≤ (⌈y⌉ : α) := Int.le_ceil y
    by_contra hc
    push_neg at hc
    have h3 : (⌈y⌉ : ℤ) + 1 ≤ ⌊y + 1 / 2⌋ := by omega
    have h4 : ((⌈y⌉ + 1 : ℤ) : α) ≤ ((⌊y + 1 / 2⌋ : ℤ) : α) := by exact_mod_cast h3
    push_cast at h4
    linarith

theorem round2_nonneg {α : Type} [LinearOrderedField α] [FloorRing α] [DecidableEq α]
    (x : α) (hx : 0 ≤ x) : 0 ≤ round2 x := by
  unfold round2
  have h1 : (0 : ℤ) ≤ ⌊x * 100⌋ := Int.floor_nonneg.mpr (by positivity)
  have h2 : (0 : ℤ) ≤ rhe (x * 100) := le_trans h1 (floor_le_rhe _)
  have h3 : (0 : α) ≤ (rhe (x * 100) : α) := by exact_mod_cast h2
  positivity

theorem round2_le_100 {α : Type} [LinearOrderedField α] [FloorRing α] [DecidableEq α]
    (x : α) (hx : x ≤ 100) : round2 x ≤ 100 := by
  unfold round2
  have h1 : rhe (x * 100) ≤ ⌈x * 100⌉ := rhe_le_ceil _
  have h2 : ⌈x * 100⌉ ≤ ⌈((10000 : ℤ) : α)⌉ := Int.ceil_le_ceil (by push_cast; linarith)
  rw [Int.ceil_intCast] at h2
  have h3 : (rhe (x * 100) : α) ≤ ((10000 : ℤ) : α) := by exact_mod_cast le_trans h1 h2
  push_cast at h3
  rw [div_le_iff₀ (by norm_num : (0 : α) < 100)]
  linarith

/-! ## Claim theorems -/

/-- C10: get_odds_band maps every price to one of exactly six band strings,
with the boundaries of the claim, returning "Unknown" below 1.01; but for a
missing or zero mean price the scoring task substitutes price 2.0, whose band
is "Favourite" (2.0 falls in the "Favourite" band, not "Even"): amended
accordingly. -/
theorem c10_odds_band (p : ℚ) :
    get_odds_band p ∈ ["Unknown", "Heavy Fav", "Favourite", "Even", "Underdog", "Longshot"] ∧
    (p < 1.01 → get_odds_band p = "Unknown") ∧
    (1.01 ≤ p → p ≤ 1.50 → get_odds_band p = "Heavy Fav") ∧
    (1.50 < p → p ≤ 2 → get_odds_band p = "Favourite") ∧
    ((2 : ℚ) < p → p ≤ 3 → get_odds_band p = "Even") ∧
    ((3 : ℚ) < p → p ≤ 5 → get_odds_band p = "Underdog") ∧
    ((5 : ℚ) < p → get_odds_band p = "Longshot") ∧
    (∀ m : MarketMetrics, m.mean_price = some 0 ∨ m.mean_price = none →
      scored_odds_band m = "Favourite") := by
  refine ⟨?_, ?_, ?_, ?_, ?_, ?_, ?_, ?_⟩
  · unfold get_odds_band
    split_ifs <;> simp
  · intro h
    unfold get_odds_band
    rw [if_pos h]
  · intro h1 h2
    unfold get_odds_band
    rw [if_neg (by linarith), if_pos (by linarith)]
  · intro h1 h2
    unfold get_odds_band
    rw [if_neg (by linarith), if_neg (by linarith), if_pos (by linarith)]
  · intro h1 h2
    unfold get_odds_band
    rw [if_neg (by linarith), if_neg (by linarith), if_neg (by linarith),
      if_pos (by linarith)]
  · intro h1 h2
    unfold get_odds_band
    rw [if_neg (by linarith), if_neg (by linarith), if_neg (by linarith),
      if_neg (by linarith), if_pos (by linarith)]
  · intro h
    unfold get_odds_band
    rw [if_neg (by linarith), if_neg (by linarith), if_neg (by linarith),
      if_neg (by linarith), if_neg (by linarith)]
  · intro m hm
    rcases hm with h | h <;>
      simp only [scored_odds_band, h, Option.getD_some, Option.getD_none] <;>
      norm_num [get_odds_band]

/-- C10 witness: the band of the concrete price 4 is "Underdog". -/
theorem c10_odds_band_witness :
    (3 : ℚ) < 4 ∧ (4 : ℚ) ≤ 5 ∧ get_odds_band 4 = "Underdog" :=
  ⟨by norm_num, by norm_num, (c10_odds_band 4).2.2.2.2.2.1 (by norm_num) (by norm_num)⟩

/-- C10 counterexample: for a profile with no mean price the scoring task
stores the band of the substituted price 2.0, which is "Favourite", not the
"Even" the claim names. -/
theorem c10_fallback_band_counterexample :
    scored_odds_band (build_metrics
      { avg_spread_ticks := none, price_volatility := none, update_rate_per_min := none
        avg_depth_best := none, total_matched_volume := none, mean_price := none
        snapshot_count := none, time_bucket := "6-24h" }) = "Favourite" ∧
    get_odds_band 2 ≠ "Even" := by
  have h2 : get_odds_band 2 = "Favourite" := by norm_num [get_odds_band]
  constructor
  · simp only [scored_odds_band, build_metrics, Option.getD_none]
    norm_num [get_odds_band]
  · rw [h2]
    decide

/-- C5 counterexample: the score row the scoring task constructs for a
concrete profile has config_version_id null, so it does not reference the
active ConfigVersion. -/
theorem c5_config_version_null_counterexample :
    (build_score_row 1 0
      { avg_spread_ticks := some 5, price_volatility := some 0.045
        update_rate_per_min := some 0.8, avg_depth_best := some 620
        total_matched_volume := some 18000, mean_price := some 2.5
        snapshot_count := some 50, time_bucket := "6-24h" }).config_version_id = none := rfl

/-- C5 amended: every ExploitabilityScore row created by the scoring run has
config_version_id = null; the task's constructor call never sets it. -/
theorem c5_config_version_always_null (market_id scored_at : ℤ)
    (profile : MarketProfileRow) :
    (build_score_row market_id scored_at profile).config_version_id = none := rfl

/-- C8: the momentum-signal prefilter compares the percentage price change
against min_change_pct / 100, so a runner whose primary change is 1% is
emitted as a signal under a configured minimum of 2% - the configured
minimum-change filter is off by a factor of 100 (the claim and the
surrounding code expect no signal below the configured percentage). -/
theorem c8_unit_mismatch :
    find_momentum_signal_emitted 2.02 (some 2) none none 2 = true ∧
    calc_price_change 2.02 (some 2) = some 1 ∧
    |(1 : ℚ)| < 2 := by
  have hc : calc_price_change 2.02 (some 2) = some 1 := by
    simp only [calc_price_change]
    norm_num
  refine ⟨?_, hc, by norm_num⟩
  simp only [find_momentum_signal_emitted, momentum_signal_emitted, hc, py_or_q,
    calc_price_change]
  norm_num

/-- C3: under the default activation thresholds the phase function never
returns PHASE3_LIVE, and it returns PHASE2_SHADOW exactly when the four data
thresholds (closing-data 500, settled 200, high-score 50, days 2) hold and
the shadow config has both enabled and auto_activate_phase2; at counts
(499, 200, 50, 2) the phase is PHASE1_COLLECTING and at (500, 200, 50, 2) it
is PHASE2_SHADOW. -/
theorem c3_phase_gate :
    (∀ (e a : Bool) (cd r hs d : ℤ),
      get_current_phase ⟨e, a, defaultActivationThresholds⟩ cd r hs d ≠
        TradingPhase.PHASE3_LIVE ∧
      (get_current_phase ⟨e, a, defaultActivationThresholds⟩ cd r hs d =
          TradingPhase.PHASE2_SHADOW ↔
        cd ≥ 500 ∧ r ≥ 200 ∧ hs ≥ 50 ∧ d ≥ 2 ∧ e = true ∧ a = true)) ∧
    get_current_phase ⟨true, true, defaultActivationThresholds⟩ 499 200 50 2 =
      TradingPhase.PHASE1_COLLECTING ∧
    get_current_phase ⟨true, true, defaultActivationThresholds⟩ 500 200 50 2 =
      TradingPhase.PHASE2_SHADOW := by
  refine ⟨?_, ?_, ?_⟩
  · intro e a cd r hs d
    cases e <;> cases a <;>
      simp [get_current_phase, check_ready, defaultActivationThresholds] <;>
      (try split_ifs) <;> simp_all
  · simp [get_current_phase, check_ready, defaultActivationThresholds]
  · simp [get_current_phase, check_ready, defaultActivationThresholds]

/-- C3 witness: the phase gate applied at the concrete just-met counts. -/
theorem c3_phase_gate_witness :
    get_current_phase ⟨true, true, defaultActivationThresholds⟩ 500 200 50 2 =
      TradingPhase.PHASE2_SHADOW :=
  (c3_phase_gate.1 true true 500 200 50 2).2.mpr
    (by norm_num)

/-- C4: once the closing-mid capture has the best back and best lay prices
for a decision's runner, it stores closing_mid = (closing_back +
closing_lay) / 2; the CLV percentage is (entry_back - mid) / mid * 100 for a
BACK decision and (mid - entry_lay) / entry_lay * 100 for a LAY decision,
and 0 whenever the closing mid is not positive. -/
theorem c4_closing_mid_clv (decision_type : String)
    (entry_back entry_lay closing_back closing_lay : ℚ) :
    (capture_closing_update decision_type entry_back entry_lay closing_back
        closing_lay).1 = (closing_back + closing_lay) / 2 ∧
    (decision_type = "BACK" → 0 < (closing_back + closing_lay) / 2 →
      (capture_closing_update decision_type entry_back entry_lay closing_back
          closing_lay).2 =
        (entry_back - (closing_back + closing_lay) / 2) /
          ((closing_back + closing_lay) / 2) * 100) ∧
    (decision_type = "LAY" → 0 < (closing_back + closing_lay) / 2 →
      (capture_closing_update decision_type entry_back entry_lay closing_back
          closing_lay).2 =
        ((closing_back + closing_lay) / 2 - entry_lay) / entry_lay * 100) ∧
    (¬ 0 < (closing_back + closing_lay) / 2 →
      (capture_closing_update decision_type entry_back entry_lay closing_back
          closing_lay).2 = 0) := by
  refine ⟨rfl, ?_, ?_, ?_⟩
  · intro hd hm
    subst hd
    simp only [capture_closing_update]
    split_ifs with h h2
    · rfl
    all_goals exact absurd ⟨by trivial, hm⟩ h
  · intro hd hm
    subst hd
    simp only [capture_closing_update]
    split_ifs with h1 h2
    · exact absurd h1 (by simp)
    · rfl
    · exact absurd ⟨by trivial, hm⟩ h2
  · intro hm
    simp only [capture_closing_update]
    split_ifs with h1 h2
    · exact absurd h1.2 hm
    · exact absurd h2.2 hm
    · rfl

/-- C4 witness: a concrete BACK decision with entry 3.0 against closing
prices 2.0 / 2.2 gets closing_mid 2.1 and CLV (3 - 2.1) / 2.1 * 100. -/
theorem c4_closing_mid_clv_witness :
    (capture_closing_update "BACK" 3 1 2 2.2).1 = (2 + 2.2) / 2 ∧
    (capture_closing_update "BACK" 3 1 2 2.2).2 =
      (3 - (2 + 2.2) / 2) / ((2 + 2.2) / 2) * 100 :=
  ⟨(c4_closing_mid_clv "BACK" 3 1 2 2.2).1,
   (c4_closing_mid_clv "BACK" 3 1 2 2.2).2.1 rfl (by norm_num)⟩

/-- C7 counterexample: a hypothesis with selection_logic = "contrarian" (not
momentum) and decision side LAY, matched by a steaming signal, yields a match
with side BACK - the code forces BACK for any steaming direction, it does not
fall back to the hypothesis's own side. -/
theorem c7_steaming_counterexample :
    matches_hypothesis
      { decision_type := "LAY", selection_logic := "contrarian"
        entry_criteria :=
          { min_score := none, min_minutes_to_start := none
            max_minutes_to_start := none, max_spread_pct := none
            min_total_matched := none, market_type_filter := none
            competition_filter := none, price_change_direction := some "steaming"
            min_price_change_pct := some 5, price_change_window_minutes := some 60 } }
      { exploitability_score := none, minutes_to_start := 100, spread_pct := 1
        total_matched := 5000, market_type := "MATCH_ODDS", competition_id := 1
        change_30m := none, change_1h := some (-10), change_2h := none } =
      some "BACK" ∧ ("BACK" : String) ≠ "LAY" := by
  constructor
  · simp only [matches_hypothesis, py_or_q, decide_decision_type]
    norm_num
    exact fun hcon => absurd hcon (by simp)
  · decide

theorem ite_none_some {α : Type} {c : Prop} [Decidable c] {t : Option α} {r : α}
    (h : (if c then none else t) = some r) : t = some r := by
  by_cases hc : c
  · rw [if_pos hc] at h
    exact absurd h (by simp)
  · rwa [if_neg hc] at h

/-- C7 amended: the decision side of a match is taken from the hypothesis,
except that a steaming price-change direction forces BACK regardless of the
selection logic, and a drifting direction together with selection_logic =
contrarian forces LAY. -/
theorem c7_decision_side (hypothesis : TradingHypothesisRow)
    (signal : SignalFields) (side : String)
    (h : matches_hypothesis hypothesis signal = some side) :
    (hypothesis.entry_criteria.price_change_direction = some "steaming" →
      side = "BACK") ∧
    (hypothesis.entry_criteria.price_change_direction = some "drifting" →
      hypothesis.selection_logic = "contrarian" → side = "LAY") ∧
    (hypothesis.entry_criteria.price_change_direction ≠ some "steaming" →
      (hypothesis.entry_criteria.price_change_direction = some "drifting" →
        hypothesis.selection_logic ≠ "contrarian") →
      side = hypothesis.decision_type) := by
  have hside : side = decide_decision_type
      hypothesis.entry_criteria.price_change_direction
      hypothesis.selection_logic hypothesis.decision_type := by
    rw [matches_hypothesis] at h
    dsimp only at h
    replace h := ite_none_some h
    replace h := ite_none_some h
    replace h := ite_none_some h
    replace h := ite_none_some h
    replace h := ite_none_some h
    replace h := ite_none_some h
    replace h := ite_none_some h
    rcases hch : (if hypothesis.entry_criteria.price_change_window_minutes.getD 60 ≤ 30
        then signal.change_30m
        else if hypothesis.entry_criteria.price_change_window_minutes.getD 60 ≤ 60 then
          py_or_q signal.change_1h signal.change_30m
        else py_or_q signal.change_2h (py_or_q signal.change_1h signal.change_30m))
      with _ | c
    · rw [hch] at h
      injection h with h2
      exact h2.symm
    · rw [hch] at h
      dsimp only at h
      by_cases hd1 : hypothesis.entry_criteria.price_change_direction = some "steaming"
      · rw [if_pos hd1] at h
        replace h := ite_none_some h
        injection h with h2
        exact h2.symm
      · rw [if_neg hd1] at h
        by_cases hd2 : hypothesis.entry_criteria.price_change_direction = some "drifting"
        · rw [if_pos hd2] at h
          replace h := ite_none_some h
          injection h with h2
          exact h2.symm
        · rw [if_neg hd2] at h
          replace h := ite_none_some h
          injection h with h2
          exact h2.symm
  refine ⟨?_, ?_, ?_⟩
  · intro hdir
    rw [hside]
    unfold decide_decision_type
    rw [if_pos hdir]
  · intro hdir hlogic
    rw [hside]
    unfold decide_decision_type
    rw [if_neg (by simp [hdir]), if_pos ⟨hdir, hlogic⟩]
  · intro hns hnd
    rw [hside]
    unfold decide_decision_type
    rw [if_neg hns, if_neg (by rintro ⟨hd, hl⟩; exact hnd hd hl)]

/-- C7 witness: a drifting signal against a contrarian hypothesis matches
with side LAY. -/
theorem c7_decision_side_witness :
    matches_hypothesis
      { decision_type := "BACK", selection_logic := "contrarian"
        entry_criteria :=
          { min_score := none, min_minutes_to_start := none
            max_minutes_to_start := none, max_spread_pct := none
            min_total_matched := none, market_type_filter := none
            competition_filter := none, price_change_direction := some "drifting"
            min_price_change_pct := some 5, price_change_window_minutes := some 60 } }
      { exploitability_score := none, minutes_to_start := 100, spread_pct := 1
        total_matched := 5000, market_type := "MATCH_ODDS", competition_id := 1
        change_30m := none, change_1h := some 10, change_2h := none } =
      some "LAY" ∧ ("LAY" : String) = "LAY" := by
  have hm : matches_hypothesis
      { decision_type := "BACK", selection_logic := "contrarian"
        entry_criteria :=
          { min_score := none, min_minutes_to_start := none
            max_minutes_to_start := none, max_spread_pct := none
            min_total_matched := none, market_type_filter := none
            competition_filter := none, price_change_direction := some "drifting"
            min_price_change_pct := some 5, price_change_window_minutes := some 60 } }
      { exploitability_score := none, minutes_to_start := 100, spread_pct := 1
        total_matched := 5000, market_type := "MATCH_ODDS", competition_id := 1
        change_30m := none, change_1h := some 10, change_2h := none } =
      some "LAY" := by
    simp only [matches_hypothesis, py_or_q, decide_decision_type]
    norm_num
    exact ⟨by simp, by decide, fun hcon => absurd hcon (by decide)⟩
  exact ⟨hm, (c7_decision_side _ _ "LAY" hm).2.1 rfl rfl⟩

/-- C9 counterexample: an existing ClosingData row whose closing_odds and
final_score are already populated is skipped by _capture_market_closing even
though its minutes_to_start (12) is NOT smaller than the recomputed value
(5), refuting that the capture is skipped exactly when the existing
minutes_to_start is smaller. -/
theorem c9_skip_counterexample :
    capture_market_closing
      (some { closing_odds_present := true, closing_snapshot_id := some 7
              minutes_to_start := some 12, final_score := some 50
              final_score_id := some 3 }) 5
      (some { id := 9, has_ladder_data := true, captured_at := 0 })
      none = none ∧
    ¬ ((12 : ℤ) < 5) := by
  constructor
  · simp only [capture_market_closing]
    norm_num
  · decide

/-- C9 amended: for a market with an existing ClosingData row the capture is
skipped exactly when the row already has truthy closing odds and a truthy
(non-null, non-zero) final score, or when its minutes_to_start is truthy
(non-null, non-zero) and the recomputed value is greater than or equal to it;
with no existing row the capture always proceeds, and a proceeding capture
with a ladder-bearing latest snapshot stores that snapshot with
minutes_to_start recomputed and stores the latest score when one exists. -/
theorem c9_capture_skip (ex : MarketClosingDataRow) (minutes : ℤ)
    (snap : Option SnapshotRow) (score : Option ScoreRowBrief) :
    (capture_market_closing (some ex) minutes snap score = none ↔
      ((ex.closing_odds_present = true ∧ ex.final_score.getD 0 ≠ 0) ∨
        (ex.minutes_to_start.getD 0 ≠ 0 ∧ ex.minutes_to_start.getD 0 ≤ minutes))) ∧
    capture_market_closing none minutes snap score ≠ none ∧
    (∀ s : SnapshotRow, snap = some s → s.has_ladder_data = true →
      ∀ row, capture_market_closing (some ex) minutes snap score = some row →
        row.minutes_to_start = some minutes ∧
        row.closing_snapshot_id = some s.id ∧
        row.closing_odds_present = true ∧
        (∀ sc : ScoreRowBrief, score = some sc →
          row.final_score = some sc.total_score ∧ row.final_score_id = some sc.id)) := by
  refine ⟨?_, ?_, ?_⟩
  · simp only [capture_market_closing]
    split_ifs with h1 h2
    · exact iff_of_true rfl (Or.inl h1)
    · exact iff_of_true rfl (Or.inr ⟨h2.1, h2.2⟩)
    · refine iff_of_false (by simp) ?_
      rintro (hc | hc)
      · exact h1 hc
      · exact h2 ⟨hc.1, hc.2⟩
  · simp only [capture_market_closing]
    simp
  · intro s hs hl row hrow
    subst hs
    simp only [capture_market_closing] at hrow
    split_ifs at hrow with h1 h2
    injection hrow with hrow
    subst hrow
    rcases score with _ | sc <;>
      simp_all [apply_capture]

/-- C2: for any positive stake and price above 1, calculate_pnl returns the
claimed net P&L and maximum loss on every (side, outcome) combination, all
fields zero for VOID, and return_on_risk = net / max_loss whenever max_loss
is non-zero (0 for VOID). -/
theorem c2_calculate_pnl (S p c : ℚ) (hS : 0 < S) (hp : 1 < p) :
    (calculate_pnl S p "WIN" "BACK" c).net_pnl = S * (p - 1) * (1 - c) ∧
    (calculate_pnl S p "WIN" "BACK" c).max_loss = S ∧
    (calculate_pnl S p "LOSE" "BACK" c).net_pnl = -S ∧
    (calculate_pnl S p "LOSE" "BACK" c).max_loss = S ∧
    (calculate_pnl S p "WIN" "LAY" c).net_pnl = S * (1 - c) ∧
    (calculate_pnl S p "LOSE" "LAY" c).net_pnl = -(S * (p - 1)) ∧
    (calculate_pnl S p "LOSE" "LAY" c).max_loss = S * (p - 1) ∧
    (∀ decision_type : String, calculate_pnl S p "VOID" decision_type c =
      { gross_pnl := 0, commission := 0, spread_cost := 0, net_pnl := 0
        max_loss := 0, return_on_risk := 0 }) ∧
    (∀ outcome decision_type : String,
      (calculate_pnl S p outcome decision_type c).max_loss ≠ 0 →
        (calculate_pnl S p outcome decision_type c).return_on_risk =
          (calculate_pnl S p outcome decision_type c).net_pnl /
            (calculate_pnl S p outcome decision_type c).max_loss) ∧
    (∀ decision_type : String,
      (calculate_pnl S p "VOID" decision_type c).return_on_risk = 0) := by
  refine ⟨?_, ?_, ?_, ?_, ?_, ?_, ?_, ?_, ?_, ?_⟩
  · simp [calculate_pnl]
    ring
  · simp [calculate_pnl]
  · simp [calculate_pnl]
  · simp [calculate_pnl]
  · simp [calculate_pnl]
    ring
  · simp [calculate_pnl]
  · simp [calculate_pnl]
  · intro decision_type
    simp [calculate_pnl]
  · intro outcome decision_type hne
    simp only [calculate_pnl] at hne ⊢
    split_ifs at hne ⊢ <;> simp_all
  · intro decision_type
    simp [calculate_pnl]

/-- C2 witness: BACK WIN with price 3.00, stake 10 and commission 2% gives
gross 20.00, commission 0.40, net 19.60, max_loss 10.00 and return_on_risk
1.96. -/
theorem c2_calculate_pnl_witness :
    (0 : ℚ) < 10 ∧ (1 : ℚ) < 3 ∧
    (calculate_pnl 10 3 "WIN" "BACK" 0.02).net_pnl = 10 * (3 - 1) * (1 - 0.02) ∧
    (calculate_pnl 10 3 "WIN" "BACK" 0.02).gross_pnl = 20 ∧
    (calculate_pnl 10 3 "WIN" "BACK" 0.02).commission = 0.4 ∧
    (calculate_pnl 10 3 "WIN" "BACK" 0.02).net_pnl = 19.6 ∧
    (calculate_pnl 10 3 "WIN" "BACK" 0.02).max_loss = 10 ∧
    (calculate_pnl 10 3 "WIN" "BACK" 0.02).return_on_risk = 1.96 := by
  have h := c2_calculate_pnl 10 3 0.02 (by norm_num) (by norm_num)
  refine ⟨by norm_num, by norm_num, h.1, ?_, ?_, ?_, h.2.1, ?_⟩
  · simp [calculate_pnl]
    try norm_num
  · simp [calculate_pnl]
    try norm_num
  · rw [h.1]
    norm_num
  · have hr := h.2.2.2.2.2.2.2.2.1 "WIN" "BACK" (by rw [h.2.1]; norm_num)
    rw [hr, h.1, h.2.1]
    norm_num

/-- C9 witness: a fresh market (no existing row) with a ladder-bearing
snapshot and a score gets both stored with minutes_to_start recomputed. -/
theorem c9_capture_skip_witness :
    capture_market_closing
      (some { closing_odds_present := false, closing_snapshot_id := none
              minutes_to_start := none, final_score := none
              final_score_id := none }) 8
      (some { id := 9, has_ladder_data := true, captured_at := 4 })
      (some { id := 11, total_score := 55, scored_at := 3 }) =
      some { closing_odds_present := true, closing_snapshot_id := some 9
             minutes_to_start := some 8, final_score := some 55
             final_score_id := some 11 } ∧
    (some (8 : ℤ) : Option ℤ) = some 8 := by
  have hnotskip : capture_market_closing
      (some { closing_odds_present := false, closing_snapshot_id := none
              minutes_to_start := none, final_score := none
              final_score_id := none }) 8
      (some { id := 9, has_ladder_data := true, captured_at := 4 })
      (some { id := 11, total_score := 55, scored_at := 3 }) =
      some (apply_capture
        { closing_odds_present := false, closing_snapshot_id := none
          minutes_to_start := none, final_score := none, final_score_id := none } 8
        (some { id := 9, has_ladder_data := true, captured_at := 4 })
        (some { id := 11, total_score := 55, scored_at := 3 })) := by
    simp [capture_market_closing]
  constructor
  · rw [hnotskip]
    simp [apply_capture]
  · have h9 := (c9_capture_skip
      { closing_odds_present := false, closing_snapshot_id := none
        minutes_to_start := none, final_score := none, final_score_id := none } 8
      (some { id := 9, has_ladder_data := true, captured_at := 4 })
      (some { id := 11, total_score := 55, scored_at := 3 })).2.2
      { id := 9, has_ladder_data := true, captured_at := 4 } rfl rfl
      (apply_capture
        { closing_odds_present := false, closing_snapshot_id := none
          minutes_to_start := none, final_score := none, final_score_id := none } 8
        (some { id := 9, has_ladder_data := true, captured_at := 4 })
        (some { id := 11, total_score := 55, scored_at := 3 })) hnotskip
    exact h9.1 ▸ rfl

/-- check_guards returns the empty list exactly when no guard condition
holds. -/
theorem check_guards_eq_nil_iff (m : MarketMetrics) :
    check_guards m = [] ↔ ¬ guard_fails m := by
  unfold check_guards guard_fails
  split_ifs <;> simp_all

/-- The depth guard name appears in check_guards exactly when the depth
guard fails. -/
theorem mem_check_guards_depth (m : MarketMetrics) :
    "depth_below_100" ∈ check_guards m ↔ m.depth < 100 := by
  by_cases h1 : m.depth < 100 <;> by_cases h2 : m.spread_ticks > 20 <;>
    by_cases h3 : m.snapshot_count < 5 <;> by_cases h4 : m.volume > 500000 <;>
    simp [check_guards, h1, h2, h3, h4]

/-- The spread guard name appears in check_guards exactly when the spread
guard fails. -/
theorem mem_check_guards_spread (m : MarketMetrics) :
    "spread_above_20" ∈ check_guards m ↔ m.spread_ticks > 20 := by
  by_cases h1 : m.depth < 100 <;> by_cases h2 : m.spread_ticks > 20 <;>
    by_cases h3 : m.snapshot_count < 5 <;> by_cases h4 : m.volume > 500000 <;>
    simp [check_guards, h1, h2, h3, h4]

/-- The snapshot guard name appears in check_guards exactly when the
snapshot guard fails. -/
theorem mem_check_guards_snapshots (m : MarketMetrics) :
    "snapshots_below_5" ∈ check_guards m ↔ m.snapshot_count < 5 := by
  by_cases h1 : m.depth < 100 <;> by_cases h2 : m.spread_ticks > 20 <;>
    by_cases h3 : m.snapshot_count < 5 <;> by_cases h4 : m.volume > 500000 <;>
    simp [check_guards, h1, h2, h3, h4]

/-- The volume guard name appears in check_guards exactly when the volume
hard-cap guard fails. -/
theorem mem_check_guards_volume (m : MarketMetrics) :
    "volume_above_500000" ∈ check_guards m ↔ m.volume > 500000 := by
  by_cases h1 : m.depth < 100 <;> by_cases h2 : m.spread_ticks > 20 <;>
    by_cases h3 : m.snapshot_count < 5 <;> by_cases h4 : m.volume > 500000 <;>
    simp [check_guards, h1, h2, h3, h4]

/-- C1: whenever any default guard fails (depth < 100, spread_ticks > 20,
snapshot_count < 5 or volume > 500000), calculate_score returns total_score
0, all five component scores 0 and the non-empty list naming exactly the
failed guards; when no guard fails, guards_failed is absent (None). -/
theorem c1_guard_zeroing (m : MarketMetrics) :
    (guard_fails m →
      (calculate_score m).total_score = 0 ∧
      (calculate_score m).spread_score = 0 ∧
      (calculate_score m).volatility_score = 0 ∧
      (calculate_score m).update_score = 0 ∧
      (calculate_score m).depth_score = 0 ∧
      (calculate_score m).volume_penalty = 0 ∧
      (calculate_score m).guards_failed = some (check_guards m) ∧
      check_guards m ≠ [] ∧
      ("depth_below_100" ∈ check_guards m ↔ m.depth < 100) ∧
      ("spread_above_20" ∈ check_guards m ↔ m.spread_ticks > 20) ∧
      ("snapshots_below_5" ∈ check_guards m ↔ m.snapshot_count < 5) ∧
      ("volume_above_500000" ∈ check_guards m ↔ m.volume > 500000)) ∧
    (¬ guard_fails m → (calculate_score m).guards_failed = none) := by
  constructor
  · intro hg
    have hne : check_guards m ≠ [] := fun hc => (check_guards_eq_nil_iff m).mp hc hg
    have hcalc : calculate_score m =
        { total_score := 0, spread_score := 0, volatility_score := 0
          update_score := 0, depth_score := 0, volume_penalty := 0
          metrics := some m, guards_failed := some (check_guards m) } := by
      rw [calculate_score]
      dsimp only
      rw [if_pos hne]
    exact ⟨by rw [hcalc], by rw [hcalc], by rw [hcalc], by rw [hcalc], by rw [hcalc],
      by rw [hcalc], by rw [hcalc], hne, mem_check_guards_depth m,
      mem_check_guards_spread m, mem_check_guards_snapshots m,
      mem_check_guards_volume m⟩
  · intro hg
    have hnil : check_guards m = [] := (check_guards_eq_nil_iff m).mpr hg
    rw [calculate_score]
    dsimp only
    rw [if_neg (by simp [hnil])]

/-- C1 witness: a market with depth 0 fails the guards and is zeroed with
the guard list present; a market passing all guards has no guards_failed. -/
theorem c1_guard_zeroing_witness :
    guard_fails ⟨0, 0, 0, 0, 0, none, 0⟩ ∧
    (calculate_score ⟨0, 0, 0, 0, 0, none, 0⟩).total_score = 0 ∧
    (calculate_score ⟨0, 0, 0, 0, 0, none, 0⟩).guards_failed =
      some (check_guards ⟨0, 0, 0, 0, 0, none, 0⟩) ∧
    ¬ guard_fails ⟨5, 0.05, 1, 620, 18000, none, 50⟩ ∧
    (calculate_score ⟨5, 0.05, 1, 620, 18000, none, 50⟩).guards_failed = none := by
  have hfail : guard_fails ⟨0, 0, 0, 0, 0, none, 0⟩ := by
    norm_num [guard_fails]
  have hpass : ¬ guard_fails (⟨5, 0.05, 1, 620, 18000, none, 50⟩ : MarketMetrics) := by
    norm_num [guard_fails]
  have h1 := (c1_guard_zeroing ⟨0, 0, 0, 0, 0, none, 0⟩).1 hfail
  have h2 := (c1_guard_zeroing ⟨5, 0.05, 1, 620, 18000, none, 50⟩).2 hpass
  exact ⟨hfail, h1.1, h1.2.2.2.2.2.2.1, hpass, h2⟩

/-- The spread normalisation is nonnegative for nonnegative spreads. -/
theorem f_spread_nonneg (s : ℚ) (h : 0 ≤ s) : 0 ≤ f_spread s := by
  unfold f_spread
  dsimp only
  split_ifs with h1 h2
  · have hr : s / 2 * 0.3 = 3 * s / 20 := by ring
    rw [hr]
    exact div_nonneg (by linarith) (by norm_num)
  · have hr : (0.3 : ℚ) + (s - 2) / (8 - 2) * 0.7 = (7 * s + 4) / 60 := by ring
    rw [hr]
    exact div_nonneg (by linarith [not_lt.mp h1]) (by norm_num)
  · exact le_max_left 0 _

/-- The spread normalisation never exceeds 1. -/
theorem f_spread_le_one (s : ℚ) : f_spread s ≤ 1 := by
  unfold f_spread
  dsimp only
  split_ifs with h1 h2
  · have hr : s / 2 * 0.3 = 3 * s / 20 := by ring
    rw [hr, div_le_one (by norm_num : (0 : ℚ) < 20)]
    linarith
  · have hr : (0.3 : ℚ) + (s - 2) / (8 - 2) * 0.7 = (7 * s + 4) / 60 := by ring
    rw [hr, div_le_one (by norm_num : (0 : ℚ) < 60)]
    linarith
  · apply max_le (by norm_num)
    have hd : 0 ≤ (s - 8) / (12 - 8) :=
      div_nonneg (by linarith [not_le.mp h2]) (by norm_num)
    linarith

/-- The volatility normalisation lies in [0, 1]. -/
theorem f_volatility_mem (v : ℚ) : 0 ≤ f_volatility v ∧ f_volatility v ≤ 1 := by
  unfold f_volatility
  dsimp only
  split_ifs with h1 h2 h3
  · exact ⟨le_refl 0, by norm_num⟩
  · constructor
    · exact div_nonneg (by linarith [not_le.mp h1]) (by norm_num)
    · rw [div_le_one (by norm_num : (0 : ℚ) < 0.04)]
      linarith
  · exact ⟨le_refl 0, by norm_num⟩
  · constructor
    · exact le_max_left 0 _
    · apply max_le (by norm_num)
      have hd : 0 ≤ (v - 0.04) / (0.12 - 0.04) :=
        div_nonneg (by linarith [not_lt.mp h2]) (by norm_num)
      linarith

/-- The update-rate normalisation lies in [0, 1]. -/
theorem f_update_mem (u : ℚ) : 0 ≤ f_update u ∧ f_update u ≤ 1 := by
  unfold f_update
  dsimp only
  split_ifs with h1 h2
  · exact ⟨le_refl 0, by norm_num⟩
  · have hu : (0 : ℝ) < (u : ℚ) := by exact_mod_cast not_le.mp h1
    have hu2 : ((u : ℚ) : ℝ) < ((0.2 : ℚ) : ℝ) := by exact_mod_cast h2
    have hc : ((0.2 : ℚ) : ℝ) = 0.2 := by norm_num
    constructor
    · positivity
    · rw [hc] at hu2 ⊢
      have hr : ((u : ℚ) : ℝ) / 0.2 * 0.3 = 1.5 * ((u : ℚ) : ℝ) := by ring
      rw [hr]
      nlinarith
  · have := clamp_mem (Real.log (1 + ((u : ℚ) : ℝ)) /
      Real.log (1 + ((3.0 : ℚ) : ℝ))) 0 1 (by norm_num)
    exact this

/-- The depth normalisation lies in [0, 1]. -/
theorem f_depth_mem (d : ℚ) : 0 ≤ f_depth d ∧ f_depth d ≤ 1 := by
  unfold f_depth
  dsimp only
  split_ifs with h1 h2 h3
  · exact ⟨le_refl 0, by norm_num⟩
  · constructor
    · exact div_nonneg (by linarith [not_lt.mp h1]) (by norm_num)
    · rw [div_le_one (by norm_num : (0 : ℚ) < 1500 - 150)]
      linarith
  · exact ⟨by norm_num, le_refl 1⟩
  · constructor
    · exact le_trans (by norm_num) (le_max_left 0.7 _)
    · apply max_le (by norm_num)
      have hd : 0 ≤ (d - 1500) / (8000 - 1500) * 0.3 := by
        apply mul_nonneg
        · exact div_nonneg (by linarith [not_le.mp h2]) (by norm_num)
        · norm_num
      linarith

/-- The volume penalty lies in [0, 1]. -/
theorem f_volume_mem (v : ℚ) : 0 ≤ f_volume v ∧ f_volume v ≤ 1 := by
  unfold f_volume
  dsimp only
  split_ifs with h1 h2 h3
  · exact ⟨le_refl 0, by norm_num⟩
  · exact ⟨by norm_num, le_refl 1⟩
  · exact ⟨by norm_num, le_refl 1⟩
  · exact clamp_mem _ 0 1 (by norm_num)

/-- C6 counterexample: a profile with a negative average spread (-1 tick)
passes every guard yet receives a spread component score of -15, below the
claimed lower bound of 0. -/
theorem c6_negative_spread_counterexample :
    (calculate_score ⟨-1, 0, 0, 150, 0, none, 5⟩).spread_score < 0 := by
  have hnil : check_guards ⟨-1, 0, 0, 150, 0, none, 5⟩ = [] := by
    norm_num [check_guards]
  rw [calculate_score]
  dsimp only
  rw [if_neg (by simp [hnil])]
  have hfs : f_spread (-1 : ℚ) = -0.15 := by norm_num [f_spread]
  dsimp only
  rw [hfs]
  norm_num [round2, rhe, Int.fract, round_eq]

/-- C6 amended: for every ProfileMetrics input with a nonnegative
spread_ticks, the ScoreResult satisfies 0 <= total_score <= 100 and
0 <= each of the five component scores <= 100 (for a negative spread the
spread component can go below 0, as the counterexample shows; every other
component is bounded for all inputs). -/
theorem c6_score_bounds (m : MarketMetrics) (h : 0 ≤ m.spread_ticks) :
    (0 ≤ (calculate_score m).total_score ∧ (calculate_score m).total_score ≤ 100) ∧
    (0 ≤ (calculate_score m).spread_score ∧ (calculate_score m).spread_score ≤ 100) ∧
    (0 ≤ (calculate_score m).volatility_score ∧
      (calculate_score m).volatility_score ≤ 100) ∧
    (0 ≤ (calculate_score m).update_score ∧ (calculate_score m).update_score ≤ 100) ∧
    (0 ≤ (calculate_score m).depth_score ∧ (calculate_score m).depth_score ≤ 100) ∧
    (0 ≤ (calculate_score m).volume_penalty ∧
      (calculate_score m).volume_penalty ≤ 100) := by
  by_cases hg : check_guards m = []
  · have hcalc : calculate_score m =
        { total_score := round2 (clamp ((((w_spread * f_spread m.spread_ticks : ℚ) : ℝ) +
              ((w_volatility * f_volatility m.volatility : ℚ) : ℝ) +
              ((w_update : ℚ) : ℝ) * f_update m.update_rate +
              ((w_depth * f_depth m.depth : ℚ) : ℝ) -
              ((w_volume_penalty * f_volume m.volume : ℚ) : ℝ)) * 100) 0 100)
          spread_score := round2 (f_spread m.spread_ticks * 100)
          volatility_score := round2 (f_volatility m.volatility * 100)
          update_score := round2 (f_update m.update_rate * 100)
          depth_score := round2 (f_depth m.depth * 100)
          volume_penalty := round2 (f_volume m.volume * 100)
          metrics := some m
          guards_failed := none } := by
      rw [calculate_score]
      dsimp only
      rw [if_neg (by simp [hg])]
    rw [hcalc]
    dsimp only
    refine ⟨⟨?_, ?_⟩, ⟨?_, ?_⟩, ⟨?_, ?_⟩, ⟨?_, ?_⟩, ⟨?_, ?_⟩, ⟨?_, ?_⟩⟩
    · exact round2_nonneg _ (clamp_mem _ 0 100 (by norm_num)).1
    · exact round2_le_100 _ (clamp_mem _ 0 100 (by norm_num)).2
    · exact round2_nonneg _ (mul_nonneg (f_spread_nonneg _ h) (by norm_num))
    · exact round2_le_100 _ (by linarith [f_spread_le_one m.spread_ticks])
    · exact round2_nonneg _ (mul_nonneg (f_volatility_mem m.volatility).1 (by norm_num))
    · exact round2_le_100 _ (by linarith [(f_volatility_mem m.volatility).2])
    · exact round2_nonneg _ (mul_nonneg (f_update_mem m.update_rate).1 (by norm_num))
    · exact round2_le_100 _ (by linarith [(f_update_mem m.update_rate).2])
    · exact round2_nonneg _ (mul_nonneg (f_depth_mem m.depth).1 (by norm_num))
    · exact round2_le_100 _ (by linarith [(f_depth_mem m.depth).2])
    · exact round2_nonneg _ (mul_nonneg (f_volume_mem m.volume).1 (by norm_num))
    · exact round2_le_100 _ (by linarith [(f_volume_mem m.volume).2])
  · have hcalc : calculate_score m =
        { total_score := 0, spread_score := 0, volatility_score := 0
          update_score := 0, depth_score := 0, volume_penalty := 0
          metrics := some m, guards_failed := some (check_guards m) } := by
      rw [calculate_score]
      dsimp only
      rw [if_pos hg]
    rw [hcalc]
    dsimp only
    norm_num

/-- C6 witness: a concrete in-range profile gets bounded scores. -/
theorem c6_score_bounds_witness :
    (0 : ℚ) ≤ (⟨5, 0.05, 1, 620, 18000, none, 50⟩ : MarketMetrics).spread_ticks ∧
    0 ≤ (calculate_score ⟨5, 0.05, 1, 620, 18000, none, 50⟩).spread_score ∧
    (calculate_score ⟨5, 0.05, 1, 620, 18000, none, 50⟩).total_score ≤ 100 := by
  have hsp : (0 : ℚ) ≤ (⟨5, 0.05, 1, 620, 18000, none, 50⟩ : MarketMetrics).spread_ticks := by
    norm_num
  have h := c6_score_bounds ⟨5, 0.05, 1, 620, 18000, none, 50⟩ hsp
  exact ⟨hsp, h.2.1.1, h.1.2⟩
